import Mathlib

/-
  Verification development for the ignitegym client repository.

  The embedding covers:
  - the auth/session context (`AuthContextProvider` in the contexts file):
    in-memory user, persistent storage (two keys), the HTTP client's mutable
    default Authorization header, and the loading flag, with the operations
    `userAndTokenUpdate`, `storageUserAndTokenSave`, `signIn`, `signOut`,
    `updateUserProfile`, `loadUserData`;
  - the SignUp screen's yup schema `signUpSchema` and submit handler
    `handleSignUp`;
  - the two Profile-screen schema variants (`profileSchema` in Profile.tsx
    with nullable/transform rules, and the test-based variant), and the
    avatar selection handler `handleUserPhotoSelect`.

  External calls (remote API, AsyncStorage) are modelled by outcome
  parameters: a Bool oracle per storage call (true = the awaited call
  succeeded, false = it threw), and a response value for the network.
  A thrown JS exception is modelled as the call leaving its target
  unchanged. Each operation returns the new state paired with a Bool:
  true = the promise resolved, false = it rejected (error propagated).
  JS truthiness matters in two guards: an object is truthy whenever
  present, while a string is truthy only when non-empty.
-/

namespace IgniteGym

/-- The user record (UserDTO): identifier, name, email, optional avatar. -/
structure UserDTO where
  id : String
  name : String
  email : String
  avatar : Option String
deriving Repr, DecidableEq

/-- The state touched by the session context: in-memory user (none = the
empty `{}` sentinel), the two persisted keys (user record, auth token),
the HTTP client's default Authorization header, and the loading flag. -/
structure AuthState where
  memUser : Option UserDTO
  storUser : Option UserDTO
  storToken : Option String
  authHeader : Option String
  isLoadingUserStorage : Bool
deriving Repr, DecidableEq

/-- The header value written for a token: `Bearer ${token}`. -/
def bearer (token : String) : String := "Bearer " ++ token

/-- Context initial state: `useState<UserDTO>({})`, empty storage, no
Authorization header, `useState(true)` for the loading flag. -/
def initialAuthState : AuthState :=
  { memUser := none, storUser := none, storToken := none,
    authHeader := none, isLoadingUserStorage := true }

/-- JS truthiness of an optional string: truthy iff present and non-empty. -/
def tokenTruthy : Option String → Bool
  | none => false
  | some t => !t.isEmpty

/-- `userAndTokenUpdate(userData, token)`: writes
`api.defaults.headers.common.Authorization = Bearer token` and
`setUser(userData)`. Purely in-memory, cannot throw. -/
def userAndTokenUpdate (s : AuthState) (userData : UserDTO) (token : String) : AuthState :=
  { s with authHeader := some (bearer token), memUser := some userData }

/-- `storageUserAndTokenSave(userData, token)`: sets the loading flag, awaits
`storageUserSave(userData)` then `storageAuthTokenSave(token)`, rethrows any
error, and clears the loading flag in `finally`. `userSaveOk` and
`tokenSaveOk` are the outcomes of the two storage writes. -/
def storageUserAndTokenSave (s : AuthState) (userData : UserDTO) (token : String)
    (userSaveOk tokenSaveOk : Bool) : AuthState × Bool :=
  let s1 : AuthState := { s with isLoadingUserStorage := true }
  if userSaveOk then
    let s2 : AuthState := { s1 with storUser := some userData }
    if tokenSaveOk then
      ({ s2 with storToken := some token, isLoadingUserStorage := false }, true)
    else
      ({ s2 with isLoadingUserStorage := false }, false)
  else
    ({ s1 with isLoadingUserStorage := false }, false)

/-- Outcome of `api.post('/sessions', ...)`: either the request throws, or it
resolves with a `data` object whose `user` and `token` fields may each be
absent. -/
inductive SessionsResponse where
  | netError : SessionsResponse
  | ok (user : Option UserDTO) (token : Option String) : SessionsResponse
deriving Repr, DecidableEq

/-- `signIn(email, password)`: awaits the `/sessions` post; when
`data.user && data.token` is truthy (user present, token present and
non-empty) it awaits `storageUserAndTokenSave` then runs
`userAndTokenUpdate`; any error is rethrown. The credentials only feed the
network call, so the model takes the response directly. -/
def signIn (s : AuthState) (resp : SessionsResponse)
    (userSaveOk tokenSaveOk : Bool) : AuthState × Bool :=
  match resp with
  | .netError => (s, false)
  | .ok du dt =>
    match du, dt with
    | some u, some t =>
      if t.isEmpty then (s, true)
      else
        let r := storageUserAndTokenSave s u t userSaveOk tokenSaveOk
        if r.2 then (userAndTokenUpdate r.1 u t, true) else (r.1, false)
    | _, _ => (s, true)

/-- `signOut()`: sets the loading flag, `setUser({})`, awaits
`storageUserRemove()` then `storageAuthTokenRemove()`, rethrows errors, and
clears the loading flag in `finally`. Note the Authorization header is not
touched. -/
def signOut (s : AuthState) (userRemoveOk tokenRemoveOk : Bool) : AuthState × Bool :=
  let s1 : AuthState := { s with isLoadingUserStorage := true, memUser := none }
  if userRemoveOk then
    let s2 : AuthState := { s1 with storUser := none }
    if tokenRemoveOk then
      ({ s2 with storToken := none, isLoadingUserStorage := false }, true)
    else
      ({ s2 with isLoadingUserStorage := false }, false)
  else
    ({ s1 with isLoadingUserStorage := false }, false)

/-- `updateUserProfile(userUpdated)`: `setUser(userUpdated)` then awaits
`storageUserSave(userUpdated)`, rethrowing any error. It never touches the
token key, the Authorization header, or the loading flag. -/
def updateUserProfile (s : AuthState) (userUpdated : UserDTO)
    (userSaveOk : Bool) : AuthState × Bool :=
  let s1 : AuthState := { s with memUser := some userUpdated }
  if userSaveOk then ({ s1 with storUser := some userUpdated }, true)
  else (s1, false)

/-- `loadUserData()`: sets the loading flag, awaits `storageUserGet()` then
`storageAuthTokenGet()`; when `token && userLogged` is truthy (token
non-empty and user record present) it runs `userAndTokenUpdate`; errors are
rethrown and the loading flag is cleared in `finally`. -/
def loadUserData (s : AuthState) (userGetOk tokenGetOk : Bool) : AuthState × Bool :=
  let s1 : AuthState := { s with isLoadingUserStorage := true }
  if userGetOk then
    if tokenGetOk then
      match s.storUser, s.storToken with
      | some u, some t =>
        if t.isEmpty then ({ s1 with isLoadingUserStorage := false }, true)
        else ({ userAndTokenUpdate s1 u t with isLoadingUserStorage := false }, true)
      | _, _ => ({ s1 with isLoadingUserStorage := false }, true)
    else ({ s1 with isLoadingUserStorage := false }, false)
  else ({ s1 with isLoadingUserStorage := false }, false)

/-- A process restart: storage survives, the in-memory user returns to the
`{}` sentinel, the HTTP client starts with no Authorization header, and the
loading flag starts true. -/
def restartState (s : AuthState) : AuthState :=
  { memUser := none, storUser := s.storUser, storToken := s.storToken,
    authHeader := none, isLoadingUserStorage := true }

/-- One step of the session context: any exposed operation invoked with any
arguments and any network/storage outcomes. -/
inductive AuthStep : AuthState → AuthState → Prop where
  | stepSignIn (s : AuthState) (resp : SessionsResponse) (a b : Bool) :
      AuthStep s (signIn s resp a b).1
  | stepSignOut (s : AuthState) (a b : Bool) :
      AuthStep s (signOut s a b).1
  | stepUpdateUserProfile (s : AuthState) (u : UserDTO) (ok : Bool) :
      AuthStep s (updateUserProfile s u ok).1
  | stepLoadUserData (s : AuthState) (a b : Bool) :
      AuthStep s (loadUserData s a b).1

/-- States reachable from the context's initial state by its operations. -/
def AuthReachable (s : AuthState) : Prop :=
  Relation.ReflTransGen AuthStep initialAuthState s

/-- Like `AuthStep`, but `updateUserProfile` only fires in logged-in states
(its callers in the screens always pass a mutation of the current user). -/
inductive AuthStepLoggedIn : AuthState → AuthState → Prop where
  | stepSignIn (s : AuthState) (resp : SessionsResponse) (a b : Bool) :
      AuthStepLoggedIn s (signIn s resp a b).1
  | stepSignOut (s : AuthState) (a b : Bool) :
      AuthStepLoggedIn s (signOut s a b).1
  | stepUpdateUserProfile (s : AuthState) (u : UserDTO) (ok : Bool)
      (h : s.memUser.isSome) :
      AuthStepLoggedIn s (updateUserProfile s u ok).1
  | stepLoadUserData (s : AuthState) (a b : Bool) :
      AuthStepLoggedIn s (loadUserData s a b).1

/-- Reachability when profile updates happen only while logged in. -/
def AuthReachableLoggedInUpdates (s : AuthState) : Prop :=
  Relation.ReflTransGen AuthStepLoggedIn initialAuthState s

/-- User-present-implies-token invariant: whenever a user record is in
memory, a non-empty token is persisted and the Authorization header holds
its bearer form. -/
def userTokenInvariant (s : AuthState) : Prop :=
  ∀ u : UserDTO, s.memUser = some u →
    ∃ t : String, s.storToken = some t ∧ ¬t.isEmpty ∧ s.authHeader = some (bearer t)

/- ===== SignUp screen: yup schema and submit handler ===== -/

/-- Character class of the local part of yup's email regex:
`[a-zA-Z0-9.!#$%&'*+/=?^_` etc.]` written by code point to match the regex
exactly. -/
def isEmailLocalChar (c : Char) : Bool :=
  c.isAlphanum ||
    [33, 35, 36, 37, 38, 39, 42, 43, 45, 46, 47, 61, 63,
     94, 95, 96, 123, 124, 125, 126].contains c.toNat

/-- One domain label of yup's email regex:
`[a-zA-Z0-9](?:[a-zA-Z0-9-]{0,61}[a-zA-Z0-9])?` — 1 to 63 characters,
alphanumeric or hyphen, starting and ending alphanumeric. -/
def validDomainLabel (l : List Char) : Bool :=
  match l with
  | [] => false
  | c :: rest =>
    c.isAlphanum && decide (l.length ≤ 63) &&
      (match rest.getLast? with
       | none => true
       | some d => d.isAlphanum) &&
      rest.all (fun x => x.isAlphanum || x.toNat == 45)

/-- Split a character list at every occurrence of a separator (the
separators are dropped; n separators yield n+1 groups, as a regex
alternation over `sep`-free chunks would see them). -/
def splitOnChar (sep : Char) : List Char → List (List Char)
  | [] => [[]]
  | c :: rest =>
    if c == sep then [] :: splitOnChar sep rest
    else
      match splitOnChar sep rest with
      | [] => [[c]]
      | g :: gs => (c :: g) :: gs

/-- yup's `.email()` test: `local@label(.label)*` with the classes above. -/
def emailValid (s : String) : Bool :=
  match splitOnChar '@' s.toList with
  | [localPart, domain] =>
    !localPart.isEmpty && localPart.all isEmailLocalChar &&
      (splitOnChar '.' domain).all validDomainLabel
  | _ => false

/-- The four fields of the SignUp form. -/
structure SignUpForm where
  name : String
  email : String
  password : String
  passwordConfirm : String
deriving Repr, DecidableEq

/-- `signUpSchema`: name required; email required and `.email()`; password
required with `.min(6)`; passwordConfirm required and
`.oneOf([yup.ref('password'), ''])`. yup's `required` rejects the empty
string, so the `''` member of the `oneOf` set is unreachable but kept. -/
def signUpSchemaValid (f : SignUpForm) : Bool :=
  !f.name.isEmpty &&
    (!f.email.isEmpty && emailValid f.email) &&
    (!f.password.isEmpty && decide (6 ≤ f.password.length)) &&
    (!f.passwordConfirm.isEmpty &&
      (f.passwordConfirm == f.password || f.passwordConfirm == ""))

/-- The credentials the SignUp screen hands to the session context. -/
structure SignInRequest where
  email : String
  password : String
deriving Repr, DecidableEq

/-- `handleSignUp({name, email, password})`: awaits
`api.post('/users', ...)` and, when it resolves, calls
`signIn(email, password)` with the same credentials; errors are caught and
shown as a toast (no sign-in attempt). The result is the request passed to
`signIn`, if any. -/
def handleSignUp (f : SignUpForm) (postUsersOk : Bool) : Option SignInRequest :=
  if postUsersOk then some { email := f.email, password := f.password } else none

/-- `handleSubmit(handleSignUp)`: react-hook-form runs the handler only when
the resolver (the yup schema) accepts the form data. -/
def submitSignUp (f : SignUpForm) (postUsersOk : Bool) : Option SignInRequest :=
  if signUpSchemaValid f then handleSignUp f postUsersOk else none

/- ===== Profile screen: the two schema variants ===== -/

/-- The `.transform((value) => value || null)` of the Profile.tsx schema:
empty (or absent) strings become null. -/
def nullifyEmpty : Option String → Option String
  | none => none
  | some s => if s.isEmpty then none else some s

/-- Profile.tsx `password` rule: `.min(6).nullable().transform(v => v || null)`.
After the transform a null value passes (nullable, tests skip null); a
present value must have length at least 6. -/
def profilePasswordValid (password : Option String) : Bool :=
  match nullifyEmpty password with
  | none => true
  | some p => decide (6 ≤ p.length)

/-- Profile.tsx `confirmPassword` rule: nullable, transform to null when
empty, `.oneOf([yup.ref('password'), null])`, and
`.when('password', is truthy, then required)`. `ref('password')` resolves to
the sibling's transformed value. -/
def profileConfirmValid (password confirmPassword : Option String) : Bool :=
  let p := nullifyEmpty password
  let c := nullifyEmpty confirmPassword
  (match c with
   | none => true
   | some cv => p == some cv) &&
    (match p with
     | none => true
     | some _ => c.isSome)

/-- Profile.tsx `profileSchema`: name and email required, plus the two
password rules above. -/
def profileSchemaValid (name email : String)
    (password confirmPassword : Option String) : Bool :=
  !name.isEmpty && !email.isEmpty &&
    profilePasswordValid password &&
    profileConfirmValid password confirmPassword

/-- JS truthiness of `value?.length`: true iff present and non-empty. -/
def truthyLen : Option String → Bool
  | none => false
  | some s => !s.isEmpty

/-- Second Profile schema variant, `password` test: errors when the
confirmation is filled but the password is not, or when a filled password is
shorter than 6. -/
def passwordTestValid (password confirmPassword : Option String) : Bool :=
  if truthyLen confirmPassword && !truthyLen password then false
  else if truthyLen password && decide ((password.getD "").length < 6) then false
  else true

/-- Second Profile schema variant, `confirm_password` test: errors when a
filled password has no confirmation, or when the confirmation differs from
the filled password. -/
def confirmPasswordTestValid (password confirmPassword : Option String) : Bool :=
  if truthyLen password && !truthyLen confirmPassword then false
  else if truthyLen password && confirmPassword != password then false
  else true

/-- Second Profile schema variant (the fully wired Profile screen): name and
email required, password and confirmation checked by the two tests. -/
def profileSchemaTestValid (name email : String)
    (password confirmPassword : Option String) : Bool :=
  !name.isEmpty && !email.isEmpty &&
    passwordTestValid password confirmPassword &&
    confirmPasswordTestValid password confirmPassword

/- ===== Profile screen: avatar selection ===== -/

/-- The externally visible effects of `handleUserPhotoSelect`: whether
`api.patch('/users/avatar', ...)` was issued and whether
`updateUserProfile` was called. -/
structure PhotoEffects where
  patchAvatarCalled : Bool
  updateUserProfileCalled : Bool
deriving Repr, DecidableEq

/-- The guard `photoInfo.size && photoInfo.size / 1024 / 1024 > 5`: the
reported size (bytes) is truthy and exceeds 5 MB. For an integer size the
float comparison `size / 1024 / 1024 > 5` is exactly `5 * 1024 * 1024 < size`. -/
def sizeExceedsLimit : Option Nat → Bool
  | none => false
  | some n => (n != 0) && decide (5 * 1024 * 1024 < n)

/-- `handleUserPhotoSelect()` of the wired Profile screen: returns early on a
cancelled picker or missing asset URI; reads the file info; when the size
guard fires it shows a toast and returns before any network call; otherwise
it uploads the avatar via `api.patch` and, when that resolves, calls
`updateUserProfile` with the user whose avatar is the response value.
`patchAvatarResult` is the outcome of the patch (none = it threw; the error
is caught and logged). -/
def handleUserPhotoSelect (canceled : Bool) (assetUri : Option String)
    (size : Option Nat) (patchAvatarResult : Option String) : PhotoEffects :=
  if canceled then { patchAvatarCalled := false, updateUserProfileCalled := false }
  else
    match assetUri with
    | none => { patchAvatarCalled := false, updateUserProfileCalled := false }
    | some _ =>
      if sizeExceedsLimit size then
        { patchAvatarCalled := false, updateUserProfileCalled := false }
      else
        match patchAvatarResult with
        | none => { patchAvatarCalled := true, updateUserProfileCalled := false }
        | some _ => { patchAvatarCalled := true, updateUserProfileCalled := true }

/- ===== Concrete states and forms used in counterexamples and witnesses ===== -/

/-- A sample user record. -/
def anaUser : UserDTO := { id := "1", name := "Ana", email := "ana@x.com", avatar := none }

/-- A fully consistent logged-in state. -/
def loggedInState : AuthState :=
  { memUser := some anaUser, storUser := some anaUser,
    storToken := some "tok0", authHeader := some (bearer "tok0"),
    isLoadingUserStorage := false }

/-- The logged-in state with the loading flag raised. -/
def loggedInLoadingState : AuthState :=
  { memUser := some anaUser, storUser := some anaUser,
    storToken := some "tok0", authHeader := some (bearer "tok0"),
    isLoadingUserStorage := true }

/-- A boot state whose persisted token key holds the empty string. -/
def emptyTokenBootState : AuthState :=
  { memUser := none, storUser := some anaUser, storToken := some "",
    authHeader := none, isLoadingUserStorage := true }

/-- A boot state with both keys persisted and a non-empty token. -/
def bootPersistedState : AuthState :=
  { memUser := none, storUser := some anaUser, storToken := some "tok0",
    authHeader := none, isLoadingUserStorage := true }

/-- The state after a fully successful sign-in from the initial state. -/
def afterSignIn : AuthState :=
  (signIn initialAuthState (.ok (some anaUser) (some "tok0")) true true).1

/-- The state after a fully successful sign-out following that sign-in. -/
def afterSignOut : AuthState := (signOut afterSignIn true true).1

/-- The state after calling updateUserProfile from the logged-out initial
state. -/
def afterOfflineUpdate : AuthState := (updateUserProfile initialAuthState anaUser true).1

/-- A sign-up form with a five-character password. -/
def shortPasswordForm : SignUpForm :=
  { name := "Ana", email := "ana@x.com", password := "12345", passwordConfirm := "12345" }

/-- A sign-up form whose confirmation differs from the password. -/
def mismatchForm : SignUpForm :=
  { name := "Ana", email := "ana@x.com", password := "123456", passwordConfirm := "654321" }

/- ===== Helper lemmas ===== -/

/-- A non-empty string has isEmpty = false. -/
theorem isEmpty_false_of_ne (s : String) (h : s ≠ "") : s.isEmpty = false := by
  cases hh : s.isEmpty
  · rfl
  · exact absurd ((String.isEmpty_iff s).mp (by simp [hh])) h

/-- The initial state satisfies the user-token invariant vacuously. -/
theorem userTokenInvariant_initial : userTokenInvariant initialAuthState := by
  intro u hu
  exact Option.noConfusion hu

/-- signIn preserves the user-token invariant: a failed run leaves the
invariant-relevant fields unchanged, and a successful guarded run writes the
user, the token, and the header together. -/
theorem userTokenInvariant_signIn (s : AuthState) (resp : SessionsResponse) (a b : Bool)
    (h : userTokenInvariant s) : userTokenInvariant (signIn s resp a b).1 := by
  cases resp with
  | netError => exact h
  | ok du dt =>
    cases du with
    | none => cases dt <;> exact h
    | some u0 =>
      cases dt with
      | none => exact h
      | some t0 =>
        by_cases hemp : t0.isEmpty = true
        · have hs : (signIn s (.ok (some u0) (some t0)) a b).1 = s := by
            simp [signIn, hemp]
          rw [hs]; exact h
        · have hf : t0.isEmpty = false := by simpa using hemp
          cases a with
          | false =>
            have hs : (signIn s (.ok (some u0) (some t0)) false b).1 =
                { s with isLoadingUserStorage := false } := by
              simp [signIn, storageUserAndTokenSave, hf]
            rw [hs]; exact fun u hu => h u hu
          | true =>
            cases b with
            | false =>
              have hs : (signIn s (.ok (some u0) (some t0)) true false).1 =
                  { s with storUser := some u0, isLoadingUserStorage := false } := by
                simp [signIn, storageUserAndTokenSave, hf]
              rw [hs]; exact fun u hu => h u hu
            | true =>
              have hs : (signIn s (.ok (some u0) (some t0)) true true).1 =
                  { s with memUser := some u0, storUser := some u0, storToken := some t0,
                           authHeader := some (bearer t0), isLoadingUserStorage := false } := by
                simp [signIn, storageUserAndTokenSave, userAndTokenUpdate, hf]
              rw [hs]
              intro u hu
              obtain rfl : u0 = u := Option.some.inj hu
              exact ⟨t0, rfl, by simp [hf], rfl⟩

/-- signOut preserves the user-token invariant: the in-memory user is
cleared first, so the conclusion is vacuous in every run. -/
theorem userTokenInvariant_signOut (s : AuthState) (a b : Bool) :
    userTokenInvariant (signOut s a b).1 := by
  intro u hu
  exfalso
  cases a <;> cases b <;> simp [signOut] at hu

/-- updateUserProfile called in a logged-in state preserves the user-token
invariant: the token fields are untouched and a token already exists. -/
theorem userTokenInvariant_update (s : AuthState) (u0 : UserDTO) (ok : Bool)
    (hm : s.memUser.isSome) (h : userTokenInvariant s) :
    userTokenInvariant (updateUserProfile s u0 ok).1 := by
  obtain ⟨w, hw⟩ := Option.isSome_iff_exists.mp hm
  obtain ⟨t, h1, h2, h3⟩ := h w hw
  intro u hu
  cases ok <;> exact ⟨t, h1, h2, h3⟩

/-- loadUserData preserves the user-token invariant: it either restores the
user together with its persisted token and header, or leaves the relevant
fields unchanged. -/
theorem userTokenInvariant_load (s : AuthState) (a b : Bool)
    (h : userTokenInvariant s) : userTokenInvariant (loadUserData s a b).1 := by
  cases a with
  | false => exact fun u hu => h u hu
  | true =>
    cases b with
    | false => exact fun u hu => h u hu
    | true =>
      cases hsu : s.storUser with
      | none =>
        have hs : (loadUserData s true true).1 = { s with isLoadingUserStorage := false } := by
          simp [loadUserData, hsu]
        rw [hs]; exact fun u hu => h u hu
      | some u1 =>
        cases hst : s.storToken with
        | none =>
          have hs : (loadUserData s true true).1 = { s with isLoadingUserStorage := false } := by
            simp [loadUserData, hsu, hst]
          rw [hs]; exact fun u hu => h u hu
        | some t1 =>
          by_cases hemp : t1.isEmpty = true
          · have hs : (loadUserData s true true).1 =
                { s with isLoadingUserStorage := false } := by
              simp [loadUserData, hsu, hst, hemp]
            rw [hs]; exact fun u hu => h u hu
          · have hf : t1.isEmpty = false := by simpa using hemp
            have hs : (loadUserData s true true).1 =
                { s with memUser := some u1, authHeader := some (bearer t1),
                         isLoadingUserStorage := false } := by
              simp [loadUserData, hsu, hst, hf, userAndTokenUpdate]
            rw [hs]
            intro u hu
            obtain rfl : u1 = u := Option.some.inj hu
            exact ⟨t1, hst, by simp [hf], rfl⟩

/- ===== Claim theorems ===== -/

/-- Claim C1, counterexample. The claim says no reachable state has user and
token "one without the other" and that the pair is "cleared together".
Two reachable states refute it: after a successful signIn followed by a
successful signOut, both persisted keys are cleared and the in-memory user
is the sentinel, yet the HTTP client's Authorization header still carries
the bearer token (signOut never deletes it); and updateUserProfile invoked
from the logged-out initial state yields an in-memory user with no token
in storage and no header. -/
theorem signOut_leaves_header_and_update_without_token :
    (AuthReachable afterSignOut ∧ afterSignOut.memUser = none ∧
      afterSignOut.storUser = none ∧ afterSignOut.storToken = none ∧
      afterSignOut.authHeader = some (bearer "tok0")) ∧
    (AuthReachable afterOfflineUpdate ∧ afterOfflineUpdate.memUser = some anaUser ∧
      afterOfflineUpdate.storToken = none ∧ afterOfflineUpdate.authHeader = none) := by
  refine ⟨⟨?_, rfl, rfl, rfl, rfl⟩, ?_, rfl, rfl, rfl⟩
  · exact Relation.ReflTransGen.tail
      (Relation.ReflTransGen.single
        (AuthStep.stepSignIn initialAuthState (.ok (some anaUser) (some "tok0")) true true))
      (AuthStep.stepSignOut afterSignIn true true)
  · exact Relation.ReflTransGen.single
      (AuthStep.stepUpdateUserProfile initialAuthState anaUser true)

/-- Claim C1, amended. In every state reachable by signIn, signOut,
loadUserData, and updateUserProfile-called-while-logged-in, whenever a user
record is present in memory, a matching non-empty token is present in
persistent storage and its bearer form is injected into the Authorization
header. The converse direction of the original claim is false (see the
counterexample): signOut clears memory and storage but not the header. -/
theorem reachable_user_implies_persisted_token (s : AuthState)
    (h : AuthReachableLoggedInUpdates s) : userTokenInvariant s := by
  induction h with
  | refl => exact userTokenInvariant_initial
  | tail hr hstep ih =>
    cases hstep with
    | stepSignIn resp a b => exact userTokenInvariant_signIn _ resp a b ih
    | stepSignOut a b => exact userTokenInvariant_signOut _ a b
    | stepUpdateUserProfile u ok hm => exact userTokenInvariant_update _ u ok hm ih
    | stepLoadUserData a b => exact userTokenInvariant_load _ a b ih

/-- Claim C1, witness: the amended invariant applied to the concrete state
reached by one successful sign-in. -/
theorem reachable_user_implies_persisted_token_witness :
    AuthReachableLoggedInUpdates afterSignIn ∧ userTokenInvariant afterSignIn :=
  ⟨Relation.ReflTransGen.single
      (AuthStepLoggedIn.stepSignIn initialAuthState (.ok (some anaUser) (some "tok0")) true true),
   reachable_user_implies_persisted_token afterSignIn
     (Relation.ReflTransGen.single
       (AuthStepLoggedIn.stepSignIn initialAuthState (.ok (some anaUser) (some "tok0")) true
         true))⟩

/-- Claim C2, counterexample. When the user-key removal throws, signOut
rethrows and the persisted user key is still present afterwards, contrary
to the claim that both keys are absent regardless of a throwing removal. -/
theorem signOut_failed_remove_keeps_user_key :
    (signOut loggedInState false true).2 = false ∧
    (signOut loggedInState false true).1.storUser = some anaUser :=
  ⟨rfl, rfl⟩

/-- Claim C2, amended. Every run of signOut ends with the in-memory user
equal to the empty sentinel and the loading flag false; when both removals
succeed, both persisted keys are absent as well. -/
theorem signOut_clears_memory_flag_and_keys_on_success (s : AuthState) (a b : Bool) :
    (signOut s a b).1.memUser = none ∧
    (signOut s a b).1.isLoadingUserStorage = false ∧
    (signOut s true true).1.storUser = none ∧
    (signOut s true true).1.storToken = none := by
  cases a <;> cases b <;> simp [signOut]

/-- Claim C3, counterexample. With both keys present but the persisted token
equal to the empty string, a successful loadUserData does not restore the
user (the `token && userLogged` truthiness guard treats the empty token as
absent), contrary to the claim that presence of both keys suffices. -/
theorem loadUserData_empty_token_not_restored :
    (loadUserData emptyTokenBootState true true).2 = true ∧
    emptyTokenBootState.storUser = some anaUser ∧
    emptyTokenBootState.storToken = some "" ∧
    (loadUserData emptyTokenBootState true true).1.memUser = none ∧
    (loadUserData emptyTokenBootState true true).1.authHeader = none :=
  ⟨rfl, rfl, rfl, rfl, rfl⟩

/-- Claim C3, amended. From a boot state (memory sentinel, no header), a
successful loadUserData restores exactly the persisted user and the bearer
form of the persisted token when both keys are present and the token is
non-empty; when either key is absent, the in-memory user stays the sentinel
and no header is set. -/
theorem loadUserData_restores_persisted_exactly (s : AuthState) (u : UserDTO) (t : String)
    (hm : s.memUser = none) (hh : s.authHeader = none) :
    (s.storUser = some u → s.storToken = some t → t ≠ "" →
      (loadUserData s true true).1.memUser = some u ∧
      (loadUserData s true true).1.authHeader = some (bearer t) ∧
      (loadUserData s true true).1.storUser = some u ∧
      (loadUserData s true true).1.storToken = some t) ∧
    ((s.storUser = none ∨ s.storToken = none) →
      (loadUserData s true true).1.memUser = none ∧
      (loadUserData s true true).1.authHeader = none) := by
  constructor
  · intro hsu hst hne
    have hemp : t.isEmpty = false := isEmpty_false_of_ne t hne
    simp [loadUserData, hsu, hst, hemp, userAndTokenUpdate]
  · intro habs
    rcases habs with habs | habs
    · cases hst : s.storToken <;> simp [loadUserData, habs, hst, hm, hh]
    · cases hsu : s.storUser <;> simp [loadUserData, habs, hsu, hm, hh]

/-- Claim C3, witness: the amended theorem applied to a concrete boot state
with both keys persisted and a non-empty token. -/
theorem loadUserData_restores_persisted_exactly_witness :
    (loadUserData bootPersistedState true true).1.memUser = some anaUser ∧
    (loadUserData bootPersistedState true true).1.authHeader = some (bearer "tok0") :=
  ⟨((loadUserData_restores_persisted_exactly bootPersistedState anaUser "tok0" rfl rfl).1
      rfl rfl (by decide)).1,
   ((loadUserData_restores_persisted_exactly bootPersistedState anaUser "tok0" rfl rfl).1
      rfl rfl (by decide)).2.1⟩

/-- Claim C4. In a state with a persisted non-empty token, updateUserProfile
never writes the token key or the Authorization header (in any run), and a
successful updateUserProfile(u) followed by a restart and a successful
loadUserData yields the in-memory user u, the unchanged persisted token,
and the header restored from that token. -/
theorem updateUserProfile_loadUserData_roundtrip (s : AuthState) (u : UserDTO) (t : String)
    (ht : s.storToken = some t) (hne : t ≠ "") :
    (∀ ok : Bool, (updateUserProfile s u ok).1.storToken = s.storToken ∧
                  (updateUserProfile s u ok).1.authHeader = s.authHeader) ∧
    (loadUserData (restartState (updateUserProfile s u true).1) true true).1.memUser = some u ∧
    (loadUserData (restartState (updateUserProfile s u true).1) true true).1.storToken = some t ∧
    (loadUserData (restartState (updateUserProfile s u true).1) true true).1.authHeader =
      some (bearer t) := by
  have hemp : t.isEmpty = false := isEmpty_false_of_ne t hne
  refine ⟨fun ok => by cases ok <;> simp [updateUserProfile], ?_, ?_, ?_⟩ <;>
    simp [loadUserData, restartState, updateUserProfile, ht, hemp, userAndTokenUpdate]

/-- Claim C4, witness: the round trip at a concrete logged-in state. -/
theorem updateUserProfile_loadUserData_roundtrip_witness :
    (updateUserProfile loggedInState anaUser false).1.storToken = loggedInState.storToken ∧
    (loadUserData (restartState (updateUserProfile loggedInState anaUser true).1) true
        true).1.memUser = some anaUser :=
  ⟨((updateUserProfile_loadUserData_roundtrip loggedInState anaUser "tok0" rfl
      (by decide)).1 false).1,
   (updateUserProfile_loadUserData_roundtrip loggedInState anaUser "tok0" rfl
      (by decide)).2.1⟩

/-- Claim C5, counterexample. When the token write throws after the user
write succeeded, signIn rethrows but the persisted user key has been
overwritten, contrary to the claim that every failing run leaves the
persisted keys unchanged. -/
theorem signIn_token_save_failure_overwrites_user_key :
    (signIn initialAuthState (.ok (some anaUser) (some "tok0")) true false).2 = false ∧
    initialAuthState.storUser = none ∧
    (signIn initialAuthState (.ok (some anaUser) (some "tok0")) true false).1.storUser =
      some anaUser :=
  ⟨rfl, rfl, rfl⟩

/-- Claim C5, amended. Every failing run of signIn propagates the error and
leaves the in-memory user, the Authorization header, and the persisted
token unchanged; the persisted user key is also unchanged except in the one
failure mode where the user write succeeded and the token write then threw,
in which case it holds the new user record. -/
theorem signIn_failure_preserves_memory_header_token (s : AuthState)
    (resp : SessionsResponse) (a b : Bool)
    (h : (signIn s resp a b).2 = false) :
    (signIn s resp a b).1.memUser = s.memUser ∧
    (signIn s resp a b).1.authHeader = s.authHeader ∧
    (signIn s resp a b).1.storToken = s.storToken ∧
    ((signIn s resp a b).1.storUser = s.storUser ∨
      ∃ u t, resp = .ok (some u) (some t) ∧ a = true ∧ b = false ∧
        (signIn s resp a b).1.storUser = some u) := by
  cases resp with
  | netError => exact ⟨rfl, rfl, rfl, Or.inl rfl⟩
  | ok du dt =>
    cases du with
    | none => cases dt <;> simp_all [signIn]
    | some u0 =>
      cases dt with
      | none => simp_all [signIn]
      | some t0 =>
        by_cases hemp : t0.isEmpty
        · simp_all [signIn]
        · cases a
          · simp [signIn, storageUserAndTokenSave, hemp]
          · cases b
            · refine ⟨?_, ?_, ?_, Or.inr ⟨u0, t0, rfl, rfl, rfl, ?_⟩⟩ <;>
                simp [signIn, storageUserAndTokenSave, hemp]
            · simp_all [signIn, storageUserAndTokenSave]

/-- Claim C5, witness: the amended theorem at a concrete failing run (the
network request throws). -/
theorem signIn_failure_preserves_memory_header_token_witness :
    (signIn loggedInState .netError true true).2 = false ∧
    (signIn loggedInState .netError true true).1.memUser = loggedInState.memUser :=
  ⟨rfl, (signIn_failure_preserves_memory_header_token loggedInState .netError true true rfl).1⟩

/-- Claim C6, counterexample. The claim says every exposed operation raises
the loading indicator and clears it in guaranteed cleanup on every exit
path. updateUserProfile never touches the flag (a run started with the flag
true ends with it true), and a signIn run whose network request throws ends
with the flag still true as well, since signIn only toggles the flag inside
its storage-save helper, after the network call. -/
theorem updateUserProfile_leaves_loading_flag :
    (updateUserProfile loggedInLoadingState anaUser true).1.isLoadingUserStorage = true ∧
    (signIn loggedInLoadingState .netError true true).1.isLoadingUserStorage = true :=
  ⟨rfl, rfl⟩

/-- Claim C6, amended. signOut, loadUserData, and the storage-save helper
end every run with the loading flag false; updateUserProfile leaves the
flag unchanged in every run, and so does a signIn run whose network request
throws. -/
theorem loading_flag_final_values (s : AuthState) (u : UserDTO) (t : String)
    (a b ok : Bool) :
    (signOut s a b).1.isLoadingUserStorage = false ∧
    (loadUserData s a b).1.isLoadingUserStorage = false ∧
    (storageUserAndTokenSave s u t a b).1.isLoadingUserStorage = false ∧
    (updateUserProfile s u ok).1.isLoadingUserStorage = s.isLoadingUserStorage ∧
    (signIn s .netError a b).1.isLoadingUserStorage = s.isLoadingUserStorage := by
  refine ⟨?_, ?_, ?_, ?_, rfl⟩
  · cases a <;> cases b <;> simp [signOut]
  · cases a <;> cases b <;> simp [loadUserData]
    cases s.storUser <;> cases s.storToken <;> simp [userAndTokenUpdate]
    split <;> simp
  · cases a <;> cases b <;> simp [storageUserAndTokenSave]
  · cases ok <;> simp [updateUserProfile]

/-- Claim C7. The sign-up schema rejects an empty name, an empty email, an
empty password, a password shorter than 6 characters, and a confirmation
differing from the password; it accepts name Ana, email ana@x.com, password
123456, confirmation 123456, after which the screen calls signIn with the
same email and password (given that the registration post resolves). -/
theorem signUpSchema_validation_and_chaining :
    (∀ e p c : String,
      signUpSchemaValid { name := "", email := e, password := p, passwordConfirm := c } =
        false) ∧
    (∀ n p c : String,
      signUpSchemaValid { name := n, email := "", password := p, passwordConfirm := c } =
        false) ∧
    (∀ n e c : String,
      signUpSchemaValid { name := n, email := e, password := "", passwordConfirm := c } =
        false) ∧
    (∀ f : SignUpForm, f.password.length < 6 → signUpSchemaValid f = false) ∧
    (∀ f : SignUpForm, f.passwordConfirm ≠ f.password → signUpSchemaValid f = false) ∧
    submitSignUp { name := "Ana", email := "ana@x.com", password := "123456",
                   passwordConfirm := "123456" } true =
      some { email := "ana@x.com", password := "123456" } := by
  have he : ("" : String).isEmpty = true := rfl
  refine ⟨fun e p c => rfl, fun n p c => ?_, fun n e c => ?_, fun f hf => ?_,
    fun f hf => ?_, rfl⟩
  · simp [signUpSchemaValid, he]
  · simp [signUpSchemaValid, he]
  · have h1 : decide (6 ≤ f.password.length) = false :=
      decide_eq_false (Nat.not_le.mpr hf)
    simp [signUpSchemaValid, h1]
  · by_cases hc : f.passwordConfirm = ""
    · have h1 : f.passwordConfirm.isEmpty = true := (String.isEmpty_iff _).mpr hc
      simp [signUpSchemaValid, h1]
    · have h1 : (f.passwordConfirm == f.password) = false := beq_eq_false_iff_ne.mpr hf
      have h2 : (f.passwordConfirm == "") = false := beq_eq_false_iff_ne.mpr hc
      simp [signUpSchemaValid, h1, h2]

/-- Claim C7, witness: the short-password and mismatch rejections at
concrete forms. -/
theorem signUpSchema_validation_and_chaining_witness :
    shortPasswordForm.password.length < 6 ∧
    signUpSchemaValid shortPasswordForm = false ∧
    signUpSchemaValid mismatchForm = false :=
  ⟨by decide,
   signUpSchema_validation_and_chaining.2.2.2.1 shortPasswordForm (by decide),
   signUpSchema_validation_and_chaining.2.2.2.2.1 mismatchForm (by decide)⟩

/-- Claim C8. For both Profile schema variants, given non-empty name and
email: leaving password and confirmation both empty is accepted; a
non-empty password with an empty confirmation is rejected; and a non-empty
confirmation differing from a non-empty password is rejected. -/
theorem profileSchema_password_rules (name email p c : String)
    (hn : name ≠ "") (he : email ≠ "") :
    (profileSchemaValid name email (some "") (some "") = true ∧
     profileSchemaTestValid name email (some "") (some "") = true) ∧
    (p ≠ "" →
      profileSchemaValid name email (some p) (some "") = false ∧
      profileSchemaTestValid name email (some p) (some "") = false) ∧
    (p ≠ "" → c ≠ "" → c ≠ p →
      profileSchemaValid name email (some p) (some c) = false ∧
      profileSchemaTestValid name email (some p) (some c) = false) := by
  have hn' : name.isEmpty = false := isEmpty_false_of_ne name hn
  have he' : email.isEmpty = false := isEmpty_false_of_ne email he
  have h0 : ("" : String).isEmpty = true := rfl
  refine ⟨⟨?_, ?_⟩, fun hp => ⟨?_, ?_⟩, fun hp hc hcp => ⟨?_, ?_⟩⟩
  · simp [profileSchemaValid, profilePasswordValid, profileConfirmValid, nullifyEmpty,
      hn', he', h0]
  · simp [profileSchemaTestValid, passwordTestValid, confirmPasswordTestValid, truthyLen,
      hn', he', h0]
  · have hp' : p.isEmpty = false := isEmpty_false_of_ne p hp
    simp [profileSchemaValid, profileConfirmValid, nullifyEmpty, hp', h0]
  · have hp' : p.isEmpty = false := isEmpty_false_of_ne p hp
    simp [profileSchemaTestValid, confirmPasswordTestValid, truthyLen, hp', h0]
  · have hp' : p.isEmpty = false := isEmpty_false_of_ne p hp
    have hc' : c.isEmpty = false := isEmpty_false_of_ne c hc
    have hne : ((some p : Option String) == some c) = false :=
      beq_eq_false_iff_ne.mpr (fun hh => hcp (Option.some.inj hh).symm)
    simp [profileSchemaValid, profileConfirmValid, nullifyEmpty, hp', hc', hne]
  · have hp' : p.isEmpty = false := isEmpty_false_of_ne p hp
    have hc' : c.isEmpty = false := isEmpty_false_of_ne c hc
    have hne : ((some c : Option String) != some p) = true := by
      simp [bne_iff_ne]
      exact fun hh => hcp hh
    simp [profileSchemaTestValid, confirmPasswordTestValid, truthyLen, hp', hc', hne]

/-- Claim C8, witness: the three cases at concrete field values. -/
theorem profileSchema_password_rules_witness :
    profileSchemaValid "Ana" "ana@x.com" (some "") (some "") = true ∧
    profileSchemaValid "Ana" "ana@x.com" (some "123456") (some "") = false ∧
    profileSchemaTestValid "Ana" "ana@x.com" (some "123456") (some "654321") = false :=
  ⟨(profileSchema_password_rules "Ana" "ana@x.com" "123456" "654321" (by decide)
      (by decide)).1.1,
   ((profileSchema_password_rules "Ana" "ana@x.com" "123456" "654321" (by decide)
      (by decide)).2.1 (by decide)).1,
   ((profileSchema_password_rules "Ana" "ana@x.com" "123456" "654321" (by decide)
      (by decide)).2.2 (by decide) (by decide) (by decide)).2⟩

/-- Claim C9. A selected, non-cancelled avatar whose reported size exceeds
5 MB is rejected client-side: the upload patch is never issued and
updateUserProfile is never called, whatever the would-be patch outcome. -/
theorem avatar_size_guard_blocks_upload (uri : String) (n : Nat) (patch : Option String)
    (h : 5 * 1024 * 1024 < n) :
    handleUserPhotoSelect false (some uri) (some n) patch =
      { patchAvatarCalled := false, updateUserProfileCalled := false } := by
  have hne : (n != 0) = true := by
    simp [bne_iff_ne]
    omega
  have hgt : decide (5 * 1024 * 1024 < n) = true := decide_eq_true h
  simp [handleUserPhotoSelect, sizeExceedsLimit, hne, hgt]

/-- Claim C9, witness: a 6-megabyte file is rejected with no effects. -/
theorem avatar_size_guard_blocks_upload_witness :
    5 * 1024 * 1024 < 6000000 ∧
    handleUserPhotoSelect false (some "photo.png") (some 6000000) (some "avatar.png") =
      { patchAvatarCalled := false, updateUserProfileCalled := false } :=
  ⟨by decide, avatar_size_guard_blocks_upload "photo.png" 6000000 (some "avatar.png")
    (by decide)⟩

/-- Claim C10. A signIn whose network request resolves but whose response
lacks the user field or the token field completes without error and leaves
the entire state unchanged. -/
theorem signIn_missing_fields_silent_noop (s : AuthState) (du : Option UserDTO)
    (dt : Option String) (a b : Bool) (h : du = none ∨ dt = none) :
    signIn s (.ok du dt) a b = (s, true) := by
  rcases h with h | h
  · subst h
    cases dt <;> rfl
  · subst h
    cases du <;> rfl

/-- Claim C10, witness: a response with a token but no user field is a
silent no-op from the logged-in state. -/
theorem signIn_missing_fields_silent_noop_witness :
    signIn loggedInState (.ok none (some "tok1")) true true = (loggedInState, true) :=
  signIn_missing_fields_silent_noop loggedInState none (some "tok1") true true (Or.inl rfl)

end IgniteGym
